import Mathlib

/-!
Verification of the Swiss grid generator layout engine
(src/cli/swiss_grid_generator.py).

The engine is embedded shallowly over exact rationals: every Python float
value is modelled as a rational number, Python `round` (banker rounding,
ties to even) as `pyRound`, Python `int` truncation as `pyInt`, and Python
`round(x, 3)` as `round3`.  Fallible steps of the pipeline (input
validation, division by a zero baseline unit) are modelled with
`Except GenError`.
-/

namespace SwissGrid

attribute [local semireducible] Rat.ofScientific Rat.mul Rat.inv Rat.add Rat.sub

/-- Python round to nearest integer, ties to even (banker rounding). -/
def pyRound (q : ℚ) : ℤ :=
  let f := ⌊q⌋
  let r := q - (f : ℚ)
  if r < 1/2 then f
  else if 1/2 < r then f + 1
  else if f % 2 = 0 then f else f + 1

/-- Python int() conversion: truncation toward zero. -/
def pyInt (q : ℚ) : ℤ :=
  if q < 0 then ⌈q⌉ else ⌊q⌋

/-- Python round(x, 3): round to 3 decimal places, ties to even. -/
def round3 (q : ℚ) : ℚ :=
  (pyRound (q * 1000) : ℚ) / 1000

/-- FORMATS_PT: the A-series page dimension catalog (width, height in
points, portrait orientation), a partial map exactly as the Python dict. -/
def FORMATS_PT : String → Option (ℚ × ℚ)
  | "A6" => some (297.638, 419.528)
  | "A5" => some (419.528, 595.276)
  | "A4" => some (595.276, 841.890)
  | "A3" => some (841.890, 1190.551)
  | "A2" => some (1190.551, 1683.780)
  | "A1" => some (1683.780, 2383.937)
  | "A0" => some (2383.937, 3370.394)
  | _ => none

/-- BASE_GRID_UNIT: the reference A4 baseline grid unit in points. -/
def BASE_GRID_UNIT : ℚ := 12.0

/-- BASE_GUTTER: the reference gutter width in points. -/
def BASE_GUTTER : ℚ := 6.0

/-- The tuple (top, bottom, left, right, gutter_h, gutter_v) returned by
each margin calculation method. -/
structure Margins where
  top : ℚ
  bottom : ℚ
  left : ℚ
  right : ℚ
  gutterH : ℚ
  gutterV : ℚ
deriving DecidableEq

/-- Method 1: progressive margins (1:2:2:3 ratio), gutters equal one
baseline unit.  The page size and grid counts are taken but unused, as in
the source. -/
def calculate_progressive_margins (grid_unit _w _h : ℚ) (_grid_cols _grid_rows : ℕ)
    (baseline_multiple : ℚ) : Margins :=
  { top := grid_unit * 1.0 * baseline_multiple
    bottom := grid_unit * 3.0 * baseline_multiple
    left := grid_unit * 2.0 * baseline_multiple
    right := grid_unit * 2.0 * baseline_multiple
    gutterH := grid_unit
    gutterV := grid_unit }

/-- Method 2: Van de Graaf canon derived margins, gutters equal one
baseline unit. -/
def calculate_vandegraaf_margins (grid_unit _w _h : ℚ) (_grid_cols _grid_rows : ℕ)
    (baseline_multiple : ℚ) : Margins :=
  { top := grid_unit * 2.0 * baseline_multiple
    bottom := grid_unit * 3.0 * baseline_multiple
    left := grid_unit * 1.0 * baseline_multiple
    right := grid_unit * 1.5 * baseline_multiple
    gutterH := grid_unit
    gutterV := grid_unit }

/-- Method 3: grid-based margins (all four equal one baseline multiple),
gutters equal one baseline unit. -/
def calculate_grid_based_margins (grid_unit _w _h : ℚ) (_grid_cols _grid_rows : ℕ)
    (baseline_multiple : ℚ) : Margins :=
  { top := baseline_multiple * grid_unit
    bottom := baseline_multiple * grid_unit
    left := baseline_multiple * grid_unit
    right := baseline_multiple * grid_unit
    gutterH := grid_unit
    gutterV := grid_unit }

/-- MARGIN_CALCULATORS: the dispatcher keyed by the integer method id. -/
def marginCalculators (m : ℤ) : Option (ℚ → ℚ → ℚ → ℕ → ℕ → ℚ → Margins) :=
  if m = 1 then some calculate_progressive_margins
  else if m = 2 then some calculate_vandegraaf_margins
  else if m = 3 then some calculate_grid_based_margins
  else none

/-- calculate_scale_factor: min ratio of the requested format and
orientation dimensions to the A4 portrait reference dimensions.  The
dictionary lookups are modelled as an Option. -/
def calculate_scale_factor (format_name : String) (orientation : String) : Option ℚ :=
  match FORMATS_PT "A4", FORMATS_PT format_name with
  | some (a4w, a4h), some (w0, h0) =>
      let wh := if orientation = "landscape" then (h0, w0) else (w0, h0)
      some (min (wh.1 / a4w) (wh.2 / a4h))
  | _, _ => none

/-- One entry of the A4 reference typography table. -/
structure A4Style where
  name : String
  size : ℚ
  leading : ℚ
  baseline_mult : ℚ
  body_lines : ℚ
  weight : String
deriving DecidableEq

/-- A4_TYPOGRAPHY: the reference typography table for A4. -/
def A4_TYPOGRAPHY : List A4Style :=
  [ ⟨"caption", 7.0, 8.0, 0.67, 0.67, "Regular"⟩,
    ⟨"footnote", 6.0, 12.0, 1.0, 1.0, "Regular"⟩,
    ⟨"body", 10.0, 12.0, 1.0, 1.0, "Regular"⟩,
    ⟨"lead", 12.0, 12.0, 1.0, 1.0, "Regular"⟩,
    ⟨"subhead_small", 14.0, 24.0, 2.0, 2.0, "Bold"⟩,
    ⟨"subhead_medium", 18.0, 24.0, 2.0, 2.0, "Bold"⟩,
    ⟨"headline_3", 20.0, 24.0, 2.0, 2.0, "Bold"⟩,
    ⟨"headline_2", 28.0, 36.0, 3.0, 3.0, "Bold"⟩,
    ⟨"headline_1", 48.0, 48.0, 4.0, 4.0, "Bold"⟩,
    ⟨"display", 72.0, 72.0, 6.0, 6.0, "Bold"⟩ ]

/-- One scaled typography style as produced by generate_typography_styles. -/
structure TypoStyle where
  name : String
  size : ℚ
  leading : ℚ
  weight : String
  alignment : String
  baselineMultiplier : ℚ
  bodyLines : ℚ
deriving DecidableEq

/-- The metadata block of the generated typography settings. -/
structure TypoMetadata where
  format : String
  baseline_grid : ℚ
  a4_baseline : ℚ
  scale_factor : ℚ
deriving DecidableEq

/-- The generated typography settings: metadata plus scaled styles. -/
structure TypoSettings where
  metadata : TypoMetadata
  styles : List TypoStyle
deriving DecidableEq

/-- generate_typography_styles: sizes scale by the format scale factor,
leadings scale by grid_unit over the A4 baseline, each rounded to 3
decimal places. -/
def generate_typography_styles (scale_factor grid_unit : ℚ)
    (format_name : String) : TypoSettings :=
  { metadata :=
      { format := format_name
        baseline_grid := round3 grid_unit
        a4_baseline := BASE_GRID_UNIT
        scale_factor := round3 scale_factor }
    styles := A4_TYPOGRAPHY.map fun st =>
      { name := st.name
        size := round3 (st.size * scale_factor)
        leading := round3 (st.leading * (grid_unit / BASE_GRID_UNIT))
        weight := st.weight
        alignment := "Left"
        baselineMultiplier := st.baseline_mult
        bodyLines := st.body_lines } }

/-- The taxonomy of exceptions the generation function can raise: a
ValueError from input validation (tagged with the offending field) or a
ZeroDivisionError from the unguarded margin snapping division. -/
inductive GenError where
  | valueError (field : String)
  | zeroDivisionError
deriving DecidableEq

/-- The fully resolved grid specification assembled by the engine,
including the provisional (pre-snap) strategy margins and the snapped
bottom margin as intermediate values of the computation. -/
structure GridSpec where
  format : String
  orientation : String
  marginMethod : ℤ
  gridCols : ℕ
  gridRows : ℕ
  w : ℚ
  h : ℚ
  gridUnit : ℚ
  scaleFactor : ℚ
  provTop : ℚ
  provBottom : ℚ
  marginTop : ℚ
  marginBottomSnapped : ℚ
  marginBottom : ℚ
  marginLeft : ℚ
  marginRight : ℚ
  gutterH : ℚ
  gutterV : ℚ
  netW : ℚ
  netH : ℚ
  netHAligned : ℚ
  modW : ℚ
  modH : ℚ
  totalVerticalUnits : ℤ
  baselineUnitsPerCell : ℤ
  typography : TypoSettings
deriving DecidableEq

/-- The resolved baseline unit: the custom override when supplied,
otherwise the A4 baseline scaled by the format scale factor. -/
def resolveUnit (custom_baseline : Option ℚ) (format_scale_factor : ℚ) : ℚ :=
  match custom_baseline with
  | some cb => cb
  | none => BASE_GRID_UNIT * format_scale_factor

/-- Page width after the orientation swap. -/
def pageW (wh : ℚ × ℚ) (orientation : String) : ℚ :=
  if orientation = "landscape" then wh.2 else wh.1

/-- Page height after the orientation swap. -/
def pageH (wh : ℚ × ℚ) (orientation : String) : ℚ :=
  if orientation = "landscape" then wh.1 else wh.2

/-- The body of generate_swiss_grid_assets after validation and with a
nonzero baseline unit: margin snapping, module sizing, baseline unit
counting, bottom margin re-derivation and typography scaling, exactly in
the order of the source. -/
def buildSpec (format_name orientation : String) (margin_method : ℤ)
    (grid_cols grid_rows : ℕ) (w h format_scale_factor grid_unit : ℚ)
    (mar : Margins) : GridSpec :=
  let scale_factor := format_scale_factor
  let margin_top := (pyRound (mar.top / grid_unit) : ℚ) * grid_unit
  let margin_bottom_snapped := (pyRound (mar.bottom / grid_unit) : ℚ) * grid_unit
  let net_w := w - (mar.left + mar.right)
  let net_h := h - (margin_top + margin_bottom_snapped)
  let mod_w := (net_w - ((grid_cols : ℚ) - 1) * mar.gutterH) / (grid_cols : ℚ)
  let total_vertical_units := pyRound (net_h / grid_unit)
  let units_per_cell := (total_vertical_units : ℚ) / (grid_rows : ℚ)
  let b0 := pyInt units_per_cell
  let baseline_units_per_cell := if b0 < 2 then 2 else b0
  let cell_height := (baseline_units_per_cell : ℚ) * grid_unit
  let mod_h := cell_height - mar.gutterV
  let net_h_aligned := (grid_rows : ℚ) * mod_h + ((grid_rows : ℚ) - 1) * mar.gutterV
  let margin_bottom := h - margin_top - net_h_aligned
  { format := format_name
    orientation := orientation
    marginMethod := margin_method
    gridCols := grid_cols
    gridRows := grid_rows
    w := w
    h := h
    gridUnit := grid_unit
    scaleFactor := scale_factor
    provTop := mar.top
    provBottom := mar.bottom
    marginTop := margin_top
    marginBottomSnapped := margin_bottom_snapped
    marginBottom := margin_bottom
    marginLeft := mar.left
    marginRight := mar.right
    gutterH := mar.gutterH
    gutterV := mar.gutterV
    netW := net_w
    netH := net_h
    netHAligned := net_h_aligned
    modW := mod_w
    modH := mod_h
    totalVerticalUnits := total_vertical_units
    baselineUnitsPerCell := baseline_units_per_cell
    typography := generate_typography_styles scale_factor grid_unit format_name }

/-- generate_swiss_grid_assets: validation (format, margin method, grid
counts, orientation, in the order of the source), page resolution, scale
factor, baseline unit resolution, margin strategy dispatch, then the
arithmetic body.  The custom baseline is never validated; a zero baseline
surfaces as a ZeroDivisionError at the margin snapping division. -/
def generate_swiss_grid_assets (format_name : String) (margin_method : ℤ)
    (orientation : String) (grid_cols grid_rows : ℕ)
    (custom_baseline : Option ℚ) : Except GenError GridSpec :=
  match FORMATS_PT format_name with
  | none => .error (.valueError "format")
  | some wh0 =>
    match marginCalculators margin_method with
    | none => .error (.valueError "margin_method")
    | some mcalc =>
      if grid_cols < 1 ∨ grid_rows < 1 then .error (.valueError "grid")
      else if orientation ≠ "portrait" ∧ orientation ≠ "landscape" then
        .error (.valueError "orientation")
      else
        match calculate_scale_factor format_name orientation with
        | none => .error (.valueError "format")
        | some format_scale_factor =>
          if resolveUnit custom_baseline format_scale_factor = 0 then
            .error .zeroDivisionError
          else .ok (buildSpec format_name orientation margin_method grid_cols grid_rows
            (pageW wh0 orientation) (pageH wh0 orientation) format_scale_factor
            (resolveUnit custom_baseline format_scale_factor)
            (mcalc (resolveUnit custom_baseline format_scale_factor)
              (pageW wh0 orientation) (pageH wh0 orientation) grid_cols grid_rows 1))

/-- The baseline unit the engine resolves for given inputs: the override
when supplied, otherwise the A4 baseline scaled by the format scale
factor (zero when the format is unknown, in which case validation fails
first). -/
def resolvedGridUnit (format_name orientation : String) (custom_baseline : Option ℚ) : ℚ :=
  resolveUnit custom_baseline ((calculate_scale_factor format_name orientation).getD 0)

/-- The error component of a generation result, if any. -/
def errOf : Except GenError GridSpec → Option GenError
  | .error e => some e
  | .ok _ => none

/-- The validation verdict of a generation result: the offending field of
a ValueError raised by input validation, none otherwise. -/
def validationVerdict : Except GenError GridSpec → Option String
  | .error (.valueError fld) => some fld
  | _ => none

/-- One drawn rectangle of a renderer. -/
structure Rect where
  x : ℚ
  y : ℚ
  width : ℚ
  height : ℚ
deriving DecidableEq

/-- The per-module rectangle loop of generate_grid_gutters_svg: a square
double loop over one module count, top-down SVG coordinates. -/
def generate_grid_gutters_svg_modules (margin_left margin_top mod_w mod_h : ℚ)
    (grid_modules : ℕ) (grid_margin_horizontal grid_margin_vertical : ℚ) : List Rect :=
  (List.range grid_modules).flatMap fun (r : ℕ) =>
    (List.range grid_modules).map fun (c : ℕ) =>
      { x := margin_left + (c : ℚ) * (mod_w + grid_margin_horizontal)
        y := margin_top + (r : ℚ) * (mod_h + grid_margin_vertical)
        width := mod_w
        height := mod_h }

/-- The module outline loop of generate_baseline_grid_pdf: rows outer,
columns inner, bottom-up PDF coordinates with the y of the source. -/
def generate_baseline_grid_pdf_modules (h margin_left margin_top mod_w mod_h : ℚ)
    (grid_margin_horizontal grid_margin_vertical : ℚ)
    (grid_cols grid_rows : ℕ) : List Rect :=
  (List.range grid_rows).flatMap fun (r : ℕ) =>
    (List.range grid_cols).map fun (c : ℕ) =>
      { x := margin_left + (c : ℚ) * (mod_w + grid_margin_horizontal)
        y := h - margin_top - ((r : ℚ) + 1) * (mod_h + grid_margin_vertical)
        width := mod_w
        height := mod_h }

/-- Inversion of a successful generation: the inputs passed every
validation check, the baseline unit is nonzero, and the result is
buildSpec applied to the resolved page, scale factor, unit and margins. -/
lemma gen_ok_inv {format_name : String} {margin_method : ℤ} {orientation : String}
    {grid_cols grid_rows : ℕ} {custom_baseline : Option ℚ} {s : GridSpec}
    (hgen : generate_swiss_grid_assets format_name margin_method orientation
      grid_cols grid_rows custom_baseline = .ok s) :
    ∃ wh0 mcalc fsf,
      FORMATS_PT format_name = some wh0 ∧
      marginCalculators margin_method = some mcalc ∧
      1 ≤ grid_cols ∧ 1 ≤ grid_rows ∧
      (orientation = "portrait" ∨ orientation = "landscape") ∧
      calculate_scale_factor format_name orientation = some fsf ∧
      resolveUnit custom_baseline fsf ≠ 0 ∧
      s = buildSpec format_name orientation margin_method grid_cols grid_rows
        (pageW wh0 orientation) (pageH wh0 orientation) fsf
        (resolveUnit custom_baseline fsf)
        (mcalc (resolveUnit custom_baseline fsf) (pageW wh0 orientation)
          (pageH wh0 orientation) grid_cols grid_rows 1) := by
  unfold generate_swiss_grid_assets at hgen
  split at hgen
  next => exact Except.noConfusion hgen
  next wh0 hf =>
  split at hgen
  next => exact Except.noConfusion hgen
  next mcalc hm =>
  split at hgen
  next => exact Except.noConfusion hgen
  next hg =>
  split at hgen
  next => exact Except.noConfusion hgen
  next ho =>
  split at hgen
  next => exact Except.noConfusion hgen
  next fsf hsf =>
  split at hgen
  next => exact Except.noConfusion hgen
  next hz =>
  injection hgen with hs
  push_neg at hg
  have horient : orientation = "portrait" ∨ orientation = "landscape" := by tauto
  exact ⟨wh0, mcalc, fsf, hf, hm, hg.1, hg.2, horient, hsf, hz, hs.symm⟩

/-- The dispatcher only ever returns one of the three margin strategies,
and all three return both gutters equal to the baseline unit. -/
lemma marginCalculators_gutters {margin_method : ℤ}
    {mcalc : ℚ → ℚ → ℚ → ℕ → ℕ → ℚ → Margins}
    (hm : marginCalculators margin_method = some mcalc)
    (u w h : ℚ) (cols rows : ℕ) (bm : ℚ) :
    (mcalc u w h cols rows bm).gutterH = u ∧ (mcalc u w h cols rows bm).gutterV = u := by
  unfold marginCalculators at hm
  split_ifs at hm <;>
    simp only [Option.some.injEq] at hm <;>
    subst hm <;>
    exact ⟨rfl, rfl⟩

/-- The clamped Python int truncation of the units-per-cell division
agrees with the floor-based max formula, for every rational argument. -/
lemma pyInt_clamp (q : ℚ) : (if pyInt q < 2 then 2 else pyInt q) = max 2 ⌊q⌋ := by
  unfold pyInt
  by_cases hq : q < 0
  · rw [if_pos hq]
    have h1 : ⌈q⌉ ≤ 0 := by
      rw [show (0 : ℤ) = ((0 : ℤ) : ℤ) from rfl, Int.ceil_le]
      exact_mod_cast hq.le
    have h2 : ⌊q⌋ ≤ ⌈q⌉ := Int.floor_le_ceil q
    rw [if_pos (by omega)]
    omega
  · rw [if_neg hq]
    omega

/-- A cell of at least two baseline units minus a one-unit gutter leaves
at least one positive baseline unit of module height. -/
lemma modH_bound {u : ℚ} (hu : 0 < u) (b : ℤ) (hb : 2 ≤ b) :
    u ≤ (b : ℚ) * u - u ∧ 0 < (b : ℚ) * u - u := by
  have h2 : (2 : ℚ) * u ≤ (b : ℚ) * u :=
    mul_le_mul_of_nonneg_right (by exact_mod_cast hb) hu.le
  constructor
  · linarith
  · linarith

/-- C4: for every baseline unit, page size, grid counts and baseline
multiple, each of the three margin strategies returns a horizontal gutter
and a vertical gutter both exactly equal to the baseline unit. -/
theorem C4_gutters_equal_baseline_unit (u w h : ℚ) (cols rows : ℕ) (bm : ℚ) :
    ((calculate_progressive_margins u w h cols rows bm).gutterH = u ∧
      (calculate_progressive_margins u w h cols rows bm).gutterV = u) ∧
    ((calculate_vandegraaf_margins u w h cols rows bm).gutterH = u ∧
      (calculate_vandegraaf_margins u w h cols rows bm).gutterV = u) ∧
    ((calculate_grid_based_margins u w h cols rows bm).gutterH = u ∧
      (calculate_grid_based_margins u w h cols rows bm).gutterV = u) :=
  ⟨⟨rfl, rfl⟩, ⟨rfl, rfl⟩, ⟨rfl, rfl⟩⟩

/-- C5: every specification the engine constructs has a final top margin
that is an integer multiple of the baseline unit: the quotient is an
integer exactly, hence within the 1e-6 tolerance. -/
theorem C5_top_margin_baseline_aligned {format_name : String} {margin_method : ℤ}
    {orientation : String} {grid_cols grid_rows : ℕ} {custom_baseline : Option ℚ}
    {s : GridSpec}
    (hgen : generate_swiss_grid_assets format_name margin_method orientation
      grid_cols grid_rows custom_baseline = .ok s) :
    ∃ k : ℤ, s.marginTop = (k : ℚ) * s.gridUnit ∧
      |s.marginTop / s.gridUnit - (k : ℚ)| ≤ 1 / 1000000 := by
  obtain ⟨wh0, mcalc, fsf, hf, hm, hc, hr, ho, hsf, hz, hs⟩ := gen_ok_inv hgen
  subst hs
  refine ⟨pyRound ((mcalc (resolveUnit custom_baseline fsf) (pageW wh0 orientation)
    (pageH wh0 orientation) grid_cols grid_rows 1).top /
      resolveUnit custom_baseline fsf), ?_, ?_⟩
  · simp [buildSpec]
  · simp only [buildSpec]
    rw [mul_div_cancel_right₀ _ hz]
    simp

/-- C5 witness: the A4 portrait 9 by 9 default invocation succeeds and
its top margin is an integer multiple of the baseline unit. -/
theorem C5_top_margin_baseline_aligned_witness :
    ∃ s, generate_swiss_grid_assets "A4" 1 "portrait" 9 9 none = .ok s ∧
      ∃ k : ℤ, s.marginTop = (k : ℚ) * s.gridUnit ∧
        |s.marginTop / s.gridUnit - (k : ℚ)| ≤ 1 / 1000000 := by
  cases hg : generate_swiss_grid_assets "A4" 1 "portrait" 9 9 none with
  | ok s => exact ⟨s, rfl, C5_top_margin_baseline_aligned hg⟩
  | error e =>
      have hok : errOf (generate_swiss_grid_assets "A4" 1 "portrait" 9 9 none) = none := by
        decide
      rw [hg] at hok
      exact Option.noConfusion hok

/-- C6: every specification the engine constructs takes the total
baseline units as the Python round of the snapped net height over the
baseline unit and clamps the per-row unit count to
max(2, floor(totalUnits / rows)); the count is an integer at least 2. -/
theorem C6_baseline_units_per_row {format_name : String} {margin_method : ℤ}
    {orientation : String} {grid_cols grid_rows : ℕ} {custom_baseline : Option ℚ}
    {s : GridSpec}
    (hgen : generate_swiss_grid_assets format_name margin_method orientation
      grid_cols grid_rows custom_baseline = .ok s) :
    s.totalVerticalUnits = pyRound (s.netH / s.gridUnit) ∧
    s.netH = s.h - (s.marginTop + s.marginBottomSnapped) ∧
    s.baselineUnitsPerCell =
      max 2 ⌊(s.totalVerticalUnits : ℚ) / (s.gridRows : ℚ)⌋ ∧
    2 ≤ s.baselineUnitsPerCell := by
  obtain ⟨wh0, mcalc, fsf, hf, hm, hc, hr, ho, hsf, hz, hs⟩ := gen_ok_inv hgen
  subst hs
  refine ⟨by simp [buildSpec], by simp [buildSpec], ?_, ?_⟩
  · simp only [buildSpec]
    exact pyInt_clamp _
  · simp only [buildSpec]
    split
    · omega
    · omega

/-- C6 witness: the A4 portrait 9 by 9 default invocation succeeds and
satisfies the per-row baseline unit formula. -/
theorem C6_baseline_units_per_row_witness :
    ∃ s, generate_swiss_grid_assets "A4" 1 "portrait" 9 9 none = .ok s ∧
      (s.totalVerticalUnits = pyRound (s.netH / s.gridUnit) ∧
        s.netH = s.h - (s.marginTop + s.marginBottomSnapped) ∧
        s.baselineUnitsPerCell =
          max 2 ⌊(s.totalVerticalUnits : ℚ) / (s.gridRows : ℚ)⌋ ∧
        2 ≤ s.baselineUnitsPerCell) := by
  cases hg : generate_swiss_grid_assets "A4" 1 "portrait" 9 9 none with
  | ok s => exact ⟨s, rfl, C6_baseline_units_per_row hg⟩
  | error e =>
      have hok : errOf (generate_swiss_grid_assets "A4" 1 "portrait" 9 9 none) = none := by
        decide
      rw [hg] at hok
      exact Option.noConfusion hok

/-- C7: every specification the engine constructs partitions the net
content width exactly: module width times columns plus horizontal gutter
times columns minus one equals the page width minus the un-snapped left
and right margins. -/
theorem C7_width_partition {format_name : String} {margin_method : ℤ}
    {orientation : String} {grid_cols grid_rows : ℕ} {custom_baseline : Option ℚ}
    {s : GridSpec}
    (hgen : generate_swiss_grid_assets format_name margin_method orientation
      grid_cols grid_rows custom_baseline = .ok s) :
    s.modW * (s.gridCols : ℚ) + s.gutterH * ((s.gridCols : ℚ) - 1) =
      s.w - (s.marginLeft + s.marginRight) ∧
    s.netW = s.w - (s.marginLeft + s.marginRight) := by
  obtain ⟨wh0, mcalc, fsf, hf, hm, hc, hr, ho, hsf, hz, hs⟩ := gen_ok_inv hgen
  subst hs
  have hcols : ((grid_cols : ℚ)) ≠ 0 := Nat.cast_ne_zero.mpr (by omega)
  constructor
  · simp only [buildSpec]
    rw [div_mul_cancel₀ _ hcols]
    ring
  · simp [buildSpec]

/-- C7 witness: the A4 portrait 9 by 9 default invocation succeeds and
its module width partitions the net content width exactly. -/
theorem C7_width_partition_witness :
    ∃ s, generate_swiss_grid_assets "A4" 1 "portrait" 9 9 none = .ok s ∧
      (s.modW * (s.gridCols : ℚ) + s.gutterH * ((s.gridCols : ℚ) - 1) =
          s.w - (s.marginLeft + s.marginRight) ∧
        s.netW = s.w - (s.marginLeft + s.marginRight)) := by
  cases hg : generate_swiss_grid_assets "A4" 1 "portrait" 9 9 none with
  | ok s => exact ⟨s, rfl, C7_width_partition hg⟩
  | error e =>
      have hok : errOf (generate_swiss_grid_assets "A4" 1 "portrait" 9 9 none) = none := by
        decide
      rw [hg] at hok
      exact Option.noConfusion hok

/-- C10: for every successful invocation with a positive baseline unit,
the module height is at least one baseline unit and strictly positive,
whatever the row count: the per-row unit count is floored at 2 and the
vertical gutter equals one baseline unit. -/
theorem C10_module_height_positive {format_name : String} {margin_method : ℤ}
    {orientation : String} {grid_cols grid_rows : ℕ} {custom_baseline : Option ℚ}
    {s : GridSpec}
    (hgen : generate_swiss_grid_assets format_name margin_method orientation
      grid_cols grid_rows custom_baseline = .ok s)
    (hu : 0 < s.gridUnit) :
    s.gridUnit ≤ s.modH ∧ 0 < s.modH := by
  obtain ⟨wh0, mcalc, fsf, hf, hm, hc, hr, ho, hsf, hz, hs⟩ := gen_ok_inv hgen
  have hgut := (marginCalculators_gutters hm (resolveUnit custom_baseline fsf)
    (pageW wh0 orientation) (pageH wh0 orientation) grid_cols grid_rows 1).2
  subst hs
  simp only [buildSpec] at hu ⊢
  rw [hgut]
  exact modH_bound hu _ (by split <;> omega)

/-- C10 witness: the A4 portrait 1 by 13 default invocation succeeds with
a positive baseline unit, and its module height is at least one baseline
unit and positive. -/
theorem C10_module_height_positive_witness :
    ∃ s, generate_swiss_grid_assets "A4" 1 "portrait" 1 13 none = .ok s ∧
      0 < s.gridUnit ∧ s.gridUnit ≤ s.modH ∧ 0 < s.modH := by
  cases hg : generate_swiss_grid_assets "A4" 1 "portrait" 1 13 none with
  | ok s =>
      have hu : 0 < s.gridUnit := by
        have hv : (generate_swiss_grid_assets "A4" 1 "portrait" 1 13 none).toOption.map
            (fun t => decide (0 < t.gridUnit)) = some true := by decide
        rw [hg] at hv
        simp only [Except.toOption, Option.map_some'] at hv
        exact of_decide_eq_true (Option.some.injEq _ _ ▸ hv)
      exact ⟨s, rfl, hu, C10_module_height_positive hg hu⟩
  | error e =>
      have hok : errOf (generate_swiss_grid_assets "A4" 1 "portrait" 1 13 none) = none := by
        decide
      rw [hg] at hok
      exact Option.noConfusion hok

/-- C8: for every successful invocation, the scale factor of the
specification is the format scale factor (the one computed from format
and orientation only, hence unaffected by any baseline override), every
style size is the A4 reference size times that factor, and every style
leading is the A4 reference leading times baseline unit over the A4
reference baseline; a supplied override becomes the baseline unit. -/
theorem C8_typography_scaling {format_name : String} {margin_method : ℤ}
    {orientation : String} {grid_cols grid_rows : ℕ} {custom_baseline : Option ℚ}
    {s : GridSpec}
    (hgen : generate_swiss_grid_assets format_name margin_method orientation
      grid_cols grid_rows custom_baseline = .ok s) :
    ∃ fsf, calculate_scale_factor format_name orientation = some fsf ∧
      s.scaleFactor = fsf ∧
      (∀ ub, custom_baseline = some ub → s.gridUnit = ub) ∧
      s.typography.styles.length = A4_TYPOGRAPHY.length ∧
      (∀ i st, A4_TYPOGRAPHY.get? i = some st →
        s.typography.styles.get? i = some
          { name := st.name
            size := round3 (st.size * fsf)
            leading := round3 (st.leading * (s.gridUnit / BASE_GRID_UNIT))
            weight := st.weight
            alignment := "Left"
            baselineMultiplier := st.baseline_mult
            bodyLines := st.body_lines }) := by
  obtain ⟨wh0, mcalc, fsf, hf, hm, hc, hr, ho, hsf, hz, hs⟩ := gen_ok_inv hgen
  subst hs
  refine ⟨fsf, hsf, rfl, ?_, ?_, ?_⟩
  · intro ub hub
    simp [buildSpec, resolveUnit, hub]
  · simp [buildSpec, generate_typography_styles]
  · intro i st hst
    simp only [buildSpec, generate_typography_styles]
    rw [List.get?_map, hst]
    rfl

/-- C8 witness: the A4 portrait 9 by 9 invocation with a 24 point
override succeeds and satisfies the typography scaling contract. -/
theorem C8_typography_scaling_witness :
    ∃ s, generate_swiss_grid_assets "A4" 1 "portrait" 9 9 (some 24) = .ok s ∧
      ∃ fsf, calculate_scale_factor "A4" "portrait" = some fsf ∧
        s.scaleFactor = fsf ∧
        (∀ ub, (some (24 : ℚ)) = some ub → s.gridUnit = ub) ∧
        s.typography.styles.length = A4_TYPOGRAPHY.length ∧
        (∀ i st, A4_TYPOGRAPHY.get? i = some st →
          s.typography.styles.get? i = some
            { name := st.name
              size := round3 (st.size * fsf)
              leading := round3 (st.leading * (s.gridUnit / BASE_GRID_UNIT))
              weight := st.weight
              alignment := "Left"
              baselineMultiplier := st.baseline_mult
              bodyLines := st.body_lines }) := by
  cases hg : generate_swiss_grid_assets "A4" 1 "portrait" 9 9 (some 24) with
  | ok s => exact ⟨s, rfl, C8_typography_scaling hg⟩
  | error e =>
      have hok : errOf (generate_swiss_grid_assets "A4" 1 "portrait" 9 9 (some 24)) =
          none := by decide
      rw [hg] at hok
      exact Option.noConfusion hok

/-- C9: input validation never inspects the baseline override (its
verdict is identical for any two overrides); an override of exactly zero
passes validation and surfaces as a ZeroDivisionError from the margin
snapping division, while a negative override passes validation and the
generation succeeds with no error at all. -/
theorem C9_baseline_override_unvalidated :
    (∀ (format_name : String) (margin_method : ℤ) (orientation : String)
      (grid_cols grid_rows : ℕ) (c₁ c₂ : Option ℚ),
      validationVerdict (generate_swiss_grid_assets format_name margin_method
        orientation grid_cols grid_rows c₁) =
      validationVerdict (generate_swiss_grid_assets format_name margin_method
        orientation grid_cols grid_rows c₂)) ∧
    errOf (generate_swiss_grid_assets "A4" 1 "portrait" 9 9 (some 0)) =
      some GenError.zeroDivisionError ∧
    errOf (generate_swiss_grid_assets "A4" 1 "portrait" 9 9 (some (-12))) = none := by
  refine ⟨?_, by decide, by decide⟩
  intro format_name margin_method orientation grid_cols grid_rows c₁ c₂
  unfold generate_swiss_grid_assets
  split
  next => rfl
  next wh0 hf =>
  split
  next => rfl
  next mcalc hm =>
  split
  next => rfl
  next hg =>
  split
  next => rfl
  next ho =>
  split
  next => rfl
  next fsf hsf =>
  split
  next =>
    split
    next => rfl
    next => rfl
  next =>
    split
    next => rfl
    next => rfl

/-- C1 counterexample: at the reference format in landscape with
grid-based margins, a 2 by 4 grid and a 24 point override, the scale
factor of the produced specification is not 1. -/
theorem C1_scale_factor_not_one :
    (generate_swiss_grid_assets "A4" 3 "landscape" 2 4 (some 24)).toOption.map
      GridSpec.scaleFactor ≠ some 1 := by decide

/-- C1 as amended: at the reference format in landscape with grid-based
margins, a 2 by 4 grid and a 24 point override, all four provisional
margins and both gutters equal 24 points, and the scale factor is the
format-derived min ratio 595.276 / 841.890 (about 0.707), unaffected by
the override but not equal to 1. -/
theorem C1_landscape_grid_based_override :
    (generate_swiss_grid_assets "A4" 3 "landscape" 2 4 (some 24)).toOption.map
        GridSpec.provTop = some 24 ∧
    (generate_swiss_grid_assets "A4" 3 "landscape" 2 4 (some 24)).toOption.map
        GridSpec.provBottom = some 24 ∧
    (generate_swiss_grid_assets "A4" 3 "landscape" 2 4 (some 24)).toOption.map
        GridSpec.marginLeft = some 24 ∧
    (generate_swiss_grid_assets "A4" 3 "landscape" 2 4 (some 24)).toOption.map
        GridSpec.marginRight = some 24 ∧
    (generate_swiss_grid_assets "A4" 3 "landscape" 2 4 (some 24)).toOption.map
        GridSpec.gutterH = some 24 ∧
    (generate_swiss_grid_assets "A4" 3 "landscape" 2 4 (some 24)).toOption.map
        GridSpec.gutterV = some 24 ∧
    (generate_swiss_grid_assets "A4" 3 "landscape" 2 4 (some 24)).toOption.map
        GridSpec.scaleFactor = some (595276 / 841890) := by decide

/-- C2 counterexample: a valid dense invocation (A4 portrait, 50 columns,
1 row, progressive margins, default baseline) succeeds with no error yet
returns a specification whose module width is negative. -/
theorem C2_silent_negative_module_width :
    (generate_swiss_grid_assets "A4" 1 "portrait" 50 1 none).toOption.map
      (fun s => decide (s.modW < 0)) = some true := by decide

/-- C2 as amended: the engine has no arithmetic degeneracy check at all:
for every input passing the four validation checks whose resolved
baseline unit is nonzero, generation returns a specification, whatever
the module dimensions come out to be. -/
theorem C2_no_degeneracy_error {format_name : String} {margin_method : ℤ}
    {orientation : String} {grid_cols grid_rows : ℕ} {custom_baseline : Option ℚ}
    (hf : (FORMATS_PT format_name).isSome = true)
    (hm : (marginCalculators margin_method).isSome = true)
    (hcols : 1 ≤ grid_cols) (hrows : 1 ≤ grid_rows)
    (ho : orientation = "portrait" ∨ orientation = "landscape")
    (hu : resolvedGridUnit format_name orientation custom_baseline ≠ 0) :
    ∃ s, generate_swiss_grid_assets format_name margin_method orientation
      grid_cols grid_rows custom_baseline = .ok s := by
  obtain ⟨wh0, hwh⟩ := Option.isSome_iff_exists.mp hf
  obtain ⟨mc, hmc⟩ := Option.isSome_iff_exists.mp hm
  have hsf : ∃ fsf, calculate_scale_factor format_name orientation = some fsf := by
    unfold calculate_scale_factor
    rw [show FORMATS_PT "A4" = some (595.276, 841.890) from rfl, hwh]
    cases wh0 with
    | mk w0 h0 => exact ⟨_, rfl⟩
  obtain ⟨fsf, hsf⟩ := hsf
  have hu2 : resolveUnit custom_baseline fsf ≠ 0 := by
    unfold resolvedGridUnit at hu
    rw [hsf] at hu
    simpa using hu
  cases hres : generate_swiss_grid_assets format_name margin_method orientation
      grid_cols grid_rows custom_baseline with
  | ok s => exact ⟨s, rfl⟩
  | error e =>
    exfalso
    unfold generate_swiss_grid_assets at hres
    split at hres
    next h1 => rw [h1] at hwh; exact Option.noConfusion hwh
    next wh1 h1 =>
    split at hres
    next h2 => rw [h2] at hmc; exact Option.noConfusion hmc
    next mc1 h2 =>
    split at hres
    next h3 =>
      rcases h3 with h3 | h3
      · omega
      · omega
    next h3 =>
    split at hres
    next h4 => rcases ho with h5 | h5 <;> exact absurd h5 (by tauto)
    next h4 =>
    split at hres
    next h5 => rw [h5] at hsf; exact Option.noConfusion hsf
    next fsf1 h5 =>
    split at hres
    next h6 =>
      rw [h5] at hsf
      injection hsf with hfsf
      subst hfsf
      exact hu2 h6
    next h6 => exact Except.noConfusion hres

/-- C2 witness: the dense 50 by 1 A4 invocation is valid with a nonzero
default baseline, so generation returns a specification. -/
theorem C2_no_degeneracy_error_witness :
    ∃ s, generate_swiss_grid_assets "A4" 1 "portrait" 50 1 none = .ok s :=
  C2_no_degeneracy_error (by decide) (by decide) (by decide) (by decide)
    (Or.inl rfl) (by decide)

/-- A double loop over rows and columns emits rows times cols items. -/
lemma gridList_length {α : Type} (f : ℕ → ℕ → α) (rows cols : ℕ) :
    ((List.range rows).flatMap fun r => (List.range cols).map fun c => f r c).length =
      rows * cols := by
  induction rows with
  | zero => simp
  | succ n ih => simp [List.range_succ, ih, Nat.succ_mul]

/-- Membership in a double loop over rows and columns is exactly having
the loop body form for some in-range row and column indices. -/
lemma gridList_mem {α : Type} (f : ℕ → ℕ → α) (rows cols : ℕ) (a : α) :
    (a ∈ (List.range rows).flatMap fun r => (List.range cols).map fun c => f r c) ↔
      ∃ r, r < rows ∧ ∃ c, c < cols ∧ a = f r c := by
  simp only [List.mem_flatMap, List.mem_map, List.mem_range]
  constructor
  · rintro ⟨r, hr, c, hc, rfl⟩
    exact ⟨r, hr, c, hc, rfl⟩
  · rintro ⟨r, hr, c, hc, rfl⟩
    exact ⟨r, hr, c, hc, rfl⟩

/-- C3 counterexample: at concrete renderer inputs (page height 400, left
margin 10, top margin 20, module 30 by 40, gutters 5 and 6, a 2 by 2
grid), the PDF module rectangles differ from the rectangles the claimed
positions (left + c (moduleW + gutterH), top + r (moduleH + gutterV))
give after the flip to bottom-up PDF coordinates: each drawn row sits one
vertical gutter lower. -/
theorem C3_pdf_position_mismatch :
    generate_baseline_grid_pdf_modules 400 10 20 30 40 5 6 2 2 ≠
      ((List.range 2).flatMap fun (r : ℕ) => (List.range 2).map fun (c : ℕ) =>
        ({ x := 10 + (c : ℚ) * (30 + 5), y := 400 - (20 + (r : ℚ) * (40 + 6)) - 40,
           width := 30, height := 40 } : Rect)) := by decide

/-- C3 as amended: the PDF module renderer draws exactly rows times cols
module rectangles, each independently positioned at x equal to left plus
c times moduleW plus gutterH, but at bottom-up y equal to pageH minus top
minus (r + 1) times moduleH plus gutterV, one vertical gutter below the
claimed position; the SVG module renderer places rectangles exactly at
the claimed top-down positions but takes a single module count n and
draws n times n of them. -/
theorem C3_renderer_cells (hq ml mt mw mh gmh gmv : ℚ) (cols rows n : ℕ) :
    ((generate_baseline_grid_pdf_modules hq ml mt mw mh gmh gmv cols rows).length
        = rows * cols ∧
      ∀ R, R ∈ generate_baseline_grid_pdf_modules hq ml mt mw mh gmh gmv cols rows ↔
        ∃ r, r < rows ∧ ∃ c, c < cols ∧
          R = { x := ml + (c : ℚ) * (mw + gmh),
                y := hq - mt - ((r : ℚ) + 1) * (mh + gmv),
                width := mw, height := mh }) ∧
    ((generate_grid_gutters_svg_modules ml mt mw mh n gmh gmv).length = n * n ∧
      ∀ R, R ∈ generate_grid_gutters_svg_modules ml mt mw mh n gmh gmv ↔
        ∃ r, r < n ∧ ∃ c, c < n ∧
          R = { x := ml + (c : ℚ) * (mw + gmh),
                y := mt + (r : ℚ) * (mh + gmv),
                width := mw, height := mh }) := by
  refine ⟨⟨?_, ?_⟩, ?_, ?_⟩
  · unfold generate_baseline_grid_pdf_modules
    exact gridList_length _ rows cols
  · intro R
    unfold generate_baseline_grid_pdf_modules
    exact gridList_mem _ rows cols R
  · unfold generate_grid_gutters_svg_modules
    exact gridList_length _ n n
  · intro R
    unfold generate_grid_gutters_svg_modules
    exact gridList_mem _ n n R

end SwissGrid
